import Mathlib

/-!
# openwechat: the `Caller` layer (`caller.go`)

A shallow embedding of the request/parse layer of openwechat.  Go values are
modelled as follows.

* `string` and `[]byte` are both `String`; the conversions `string(b)` are the
  identity on the underlying bytes.
* The Go interface `error` is `Option GoError`; `nil` is `none`.
* A Go result pair `(T, error)` is a Lean pair; a pointer result `*T` that may
  be `nil` is `Option T`.
* Methods with a pointer receiver that mutate the receiver return the new
  receiver next to their result.
* `defer resp.Body.Close()` has no effect on returned values and is not
  modelled.
-/

namespace OpenWechat

/-! ## Data model -/

/-- Modelled from the spec: `BaseResponse` is the `{ErrCode, ErrMsg}` status
object embedded in the JSON replies; its declaration lives outside
`caller.go`. -/
structure BaseResponse where
  ErrCode : Int := 0
  ErrMsg : String := ""
deriving DecidableEq, Repr

/-- Modelled from the spec: the method `BaseResponse.Ok`, declared outside
`caller.go`; "ErrCode == 0 ⇔ logical success". -/
def BaseResponse.Ok (b : BaseResponse) : Bool := b.ErrCode == 0

/-- Modelled from the spec: `LoginInfo`, an XML document with an ok/not-ok
indicator plus session identity fields; declared outside `caller.go`. -/
structure LoginInfo where
  Ret : Int := 0
  Message : String := ""
  SKey : String := ""
  WxSid : String := ""
  WxUin : String := ""
  PassTicket : String := ""
deriving DecidableEq, Repr

/-- Modelled from the spec: the method `LoginInfo.Ok`, declared outside
`caller.go`; the ok/not-ok indicator of the document. -/
def LoginInfo.Ok (l : LoginInfo) : Bool := l.Ret == 0

/-- Go `error` values that reach `caller.go`, by dynamic type. -/
inductive GoError where
  /-- Result of `errors.New(text)`. -/
  | errorString (text : String)
  /-- A `*url.Error{Op, URL, Err}` as produced by `net/http`. -/
  | urlError (Op : String) (URL : String) (Err : GoError)
  /-- A `BaseResponse` value returned as an error. -/
  | baseResponse (b : BaseResponse)
  /-- A `LoginInfo` value returned as an error. -/
  | loginInfo (info : LoginInfo)
  /-- Any other error value (I/O, JSON or XML decoding, network). -/
  | other (text : String)
deriving DecidableEq, Repr

/-- Modelled from the spec: the package-level sentinel `loginForbiddenError`,
declared outside `caller.go`; "a distinct LoginForbiddenError, distinguishable
from generic transport failure". -/
def loginForbiddenError : GoError := GoError.errorString "login forbidden"

/-- A `*http.Response` as far as this layer looks at it: what draining `Body`
yields, the bytes read and the read error if any. -/
structure HttpResponse where
  Body : String × Option GoError := ("", none)
deriving DecidableEq, Repr

/-- Modelled from the spec: `ReturnResponse` (the ResponseEnvelope) "wraps a
raw transport result (bytes + transport-level error)"; declared outside
`caller.go`. -/
structure ReturnResponse where
  Response : HttpResponse
  err : Option GoError
deriving DecidableEq, Repr

/-- Modelled from the spec: constructor of the envelope from the Go pair
`(*http.Response, error)`. -/
def NewReturnResponse (resp : HttpResponse) (err : Option GoError) : ReturnResponse :=
  { Response := resp, err := err }

/-- Modelled from the spec: `err()` "returns the transport-level error if
present, else nil". -/
def ReturnResponse.Err (r : ReturnResponse) : Option GoError := r.err

/-- Modelled from the spec: `readAll()` "returns raw bytes, fails with IOError
if the underlying stream cannot be fully drained". -/
def ReturnResponse.ReadAll (r : ReturnResponse) : String × Option GoError := r.Response.Body

/-- Modelled from the spec: `decodeJSON(target)` "fails with ParseError on
malformed payload".  The target starts as `v`; `unmarshal` is `json.Unmarshal`
into a target of type `T`, returning the target as the decoder left it and the
decoding error. -/
def ReturnResponse.ScanJSON {T : Type} (r : ReturnResponse)
    (unmarshal : String → T × Option GoError) (v : T) : T × Option GoError :=
  match r.ReadAll with
  | (_, some err) => (v, some err)
  | (data, none) => unmarshal data

/-- Modelled from the spec: `decodeXML(target)` "fails with ParseError on
malformed payload"; as `ScanJSON` with `xml.Unmarshal`. -/
def ReturnResponse.ScanXML {T : Type} (r : ReturnResponse)
    (unmarshal : String → T × Option GoError) (v : T) : T × Option GoError :=
  match r.ReadAll with
  | (_, some err) => (v, some err)
  | (data, none) => unmarshal data

/-- The anonymous decode target `struct{ BaseResponse BaseResponse }`. -/
structure BaseResponseItem where
  BaseResponse : BaseResponse := {}
deriving DecidableEq, Repr

/-! ## Response classification -/

/-- Function `parseBaseResponseError` (caller.go 315-328). -/
def parseBaseResponseError (unmarshal : String → BaseResponseItem × Option GoError)
    (resp : ReturnResponse) : Option GoError :=
  match resp.Err with
  | some e => some e
  | none =>
    let d := resp.ScanJSON unmarshal ({} : BaseResponseItem)
    let item := d.1
    match d.2 with
    | some err => some err
    | none =>
      if !item.BaseResponse.Ok then
        some (GoError.baseResponse item.BaseResponse)
      else
        none

/-! ## Message and reply types -/

/-- Modelled from the spec: `SendMessage`, the outgoing ("pending") message;
declared outside `caller.go`. -/
structure SendMessage where
  MsgType : Int := 0
  Content : String := ""
  FromUserName : String := ""
  ToUserName : String := ""
  LocalID : String := ""
  ClientMsgId : String := ""
  MediaId : String := ""
deriving DecidableEq, Repr

/-- Modelled from the spec: `SentMessage`, "a submitted message plus a
server-assigned message identifier"; declared outside `caller.go`.  The
embedded `*SendMessage` is modelled by the message it points to. -/
structure SentMessage where
  SendMessage : SendMessage
  MsgId : String := ""
deriving DecidableEq, Repr

/-- Modelled from the spec: `MessageResponse`, the decoded reply of a send: a
nested status object plus the server message identifier; declared outside
`caller.go`. -/
structure MessageResponse where
  BaseResponse : BaseResponse := {}
  LocalID : String := ""
  MsgID : String := ""
deriving DecidableEq, Repr

/-- Modelled from the spec: `UploadResponse`, the decoded reply of an upload: a
nested status object plus the media identifier; declared outside
`caller.go`. -/
structure UploadResponse where
  BaseResponse : BaseResponse := {}
  MediaId : String := ""
deriving DecidableEq, Repr

/-- Modelled from the spec: `CheckLoginResponse`, built at caller.go 65 from
the fields `Code` and `Raw`; declared outside `caller.go`. -/
structure CheckLoginResponse where
  Code : String := ""
  Raw : String := ""
deriving DecidableEq, Repr

/-- Modelled from the spec: `SyncCheckResponse` (the SyncState), the pair
`{RetCode, Selector}`; declared outside `caller.go`. -/
structure SyncCheckResponse where
  RetCode : String := ""
  Selector : String := ""
deriving DecidableEq, Repr

/-- A `*BaseRequest`; this layer only hands it to the transport. -/
structure BaseRequest where
  ref : Nat
deriving DecidableEq, Repr

/-- A `*WebInitResponse`; this layer only hands it to the transport. -/
structure WebInitResponse where
  ref : Nat
deriving DecidableEq, Repr

/-- A `*Group`; this layer only hands it to the transport. -/
structure Group where
  ref : Nat
deriving DecidableEq, Repr

/-- A `*Friend`; this layer only hands it to the transport. -/
structure Friend where
  ref : Nat
deriving DecidableEq, Repr

/-- A `*User`; this layer only hands it to the transport. -/
structure User where
  ref : Nat
deriving DecidableEq, Repr

/-- An `*os.File`; this layer only hands it on. -/
structure File where
  ref : Nat
deriving DecidableEq, Repr

/-- An `os.FileInfo`, the result of `file.Stat()`. -/
structure FileInfo where
  ref : Nat
deriving DecidableEq, Repr

/-- The value built by `NewFileAppMessage`; only its `XmlByte` is used. -/
structure FileAppMessage where
  ref : Nat
deriving DecidableEq, Repr

/-- A parsed `*url.URL` as far as this layer looks at it: the field `Host` and
the result `Text` of the method `String()`. -/
structure URL where
  Host : String
  Text : String
deriving DecidableEq, Repr

/-! ## Client and transport -/

/-- The transport requests `caller.go` issues through `c.Client`, with their
arguments. -/
inductive Call where
  | GetLoginUUID
  | CheckLogin (uuid : String)
  | GetLoginInfo (path : String)
  | SyncCheck (info : LoginInfo) (response : WebInitResponse)
  | WebWxSendMsg (msg : SendMessage) (info : LoginInfo) (request : BaseRequest)
  | WebWxUploadMediaByChunk (file : File) (request : BaseRequest) (info : LoginInfo)
      (fromUserName : String) (toUserName : String)
  | WebWxSendMsgImg (msg : SendMessage) (request : BaseRequest) (info : LoginInfo)
  | WebWxSendAppMsg (msg : SendMessage) (req : BaseRequest)
  | AddMemberIntoChatRoom (req : BaseRequest) (info : LoginInfo) (group : Group)
      (friends : List Friend)
  | RemoveMemberFromChatRoom (req : BaseRequest) (info : LoginInfo) (group : Group)
      (users : List User)
deriving DecidableEq, Repr

/-- Modelled from the spec: `Client`, declared outside `caller.go`.  `domain` is
the field assigned at caller.go 84; `issued` records, oldest first, the
transport requests made through this client. -/
structure Client where
  domain : String := ""
  issued : List Call := []
deriving DecidableEq, Repr

/-- What `caller.go` takes from the rest of the package and from the Go
libraries. -/
structure Env where
  /-- The Transport: the Go pair `(*http.Response, error)` a request yields,
  given the client that issues it (its domain and its earlier requests). -/
  transport : Client → Call → HttpResponse × Option GoError
  /-- The function `uuidRegexp.FindSubmatch`. -/
  uuidRegexp : String → List String
  /-- The function `statusCodeRegexp.FindSubmatch`. -/
  statusCodeRegexp : String → List String
  /-- The function `redirectUriRegexp.FindSubmatch`. -/
  redirectUriRegexp : String → List String
  /-- The function `syncCheckRegexp.FindSubmatch`. -/
  syncCheckRegexp : String → List String
  /-- The function `url.Parse`. -/
  urlParse : String → Except GoError URL
  /-- The function `getDomainByHost`. -/
  getDomainByHost : String → Except GoError String
  /-- The package-level error value `missLocationHeader`. -/
  missLocationHeader : GoError
  /-- The method `Error()` of error values. -/
  errorText : GoError → String
  /-- The function `json.Unmarshal` into a `struct{ BaseResponse BaseResponse }`. -/
  unmarshalBaseResponse : String → BaseResponseItem × Option GoError
  /-- The function `json.Unmarshal` into a `MessageResponse`. -/
  unmarshalMessageResponse : String → MessageResponse × Option GoError
  /-- The function `json.Unmarshal` into an `UploadResponse`. -/
  unmarshalUploadResponse : String → UploadResponse × Option GoError
  /-- The function `xml.Unmarshal` into a `LoginInfo`. -/
  unmarshalLoginInfo : String → LoginInfo × Option GoError
  /-- The message type constant `ImageMessage`. -/
  ImageMessage : Int
  /-- The message type constant `AppMessage`. -/
  AppMessage : Int
  /-- The constructor `NewMediaSendMessage(msgType, fromUserName, toUserName, mediaId)`. -/
  NewMediaSendMessage : Int → String → String → String → SendMessage
  /-- The constructor `NewSendMessage(msgType, content, fromUserName, toUserName, mediaId)`. -/
  NewSendMessage : Int → String → String → String → String → SendMessage
  /-- The method `file.Stat()`, its error dropped as at caller.go 262. -/
  Stat : File → FileInfo
  /-- The constructor `NewFileAppMessage(stat, mediaId)`. -/
  NewFileAppMessage : FileInfo → String → FileAppMessage
  /-- The method `appMsg.XmlByte()`. -/
  XmlByte : FileAppMessage → String × Option GoError

/-- Modelled from the spec: a transport method of `Client` "performs the actual
request given already-assembled parameters and returns a raw byte response plus
error"; the request is recorded in `issued`. -/
def Client.request (env : Env) (c : Client) (k : Call) :
    (HttpResponse × Option GoError) × Client :=
  (env.transport c k, { c with issued := c.issued ++ [k] })

/-- The struct `Caller` (caller.go 12-15); the field `path` is never read. -/
structure Caller where
  Client : Client
deriving DecidableEq, Repr

/-! ## Message dispatch helpers -/

/-- Function `parseMessageResponseError` (caller.go 330-349).  The `*SentMessage`
argument is mutated on the success path; its final value is returned next to
the error. -/
def parseMessageResponseError (unmarshal : String → MessageResponse × Option GoError)
    (resp : ReturnResponse) (msg : SentMessage) : Option GoError × SentMessage :=
  match resp.Err with
  | some e => (some e, msg)
  | none =>
    let d := resp.ScanJSON unmarshal ({} : MessageResponse)
    let messageResp := d.1
    match d.2 with
    | some err => (some err, msg)
    | none =>
      if !messageResp.BaseResponse.Ok then
        (some (GoError.baseResponse messageResp.BaseResponse), msg)
      else
        (none, { msg with MsgId := messageResp.MsgID })

/-- Function `getSuccessSentMessage` (caller.go 351-356). -/
def getSuccessSentMessage (unmarshal : String → MessageResponse × Option GoError)
    (msg : SendMessage) (resp : HttpResponse) (err : Option GoError) :
    Option SentMessage × Option GoError :=
  let returnResp := NewReturnResponse resp err
  let sendSuccessMsg : SentMessage := { SendMessage := msg }
  let r := parseMessageResponseError unmarshal returnResp sendSuccessMsg
  (some r.2, r.1)

/-! ## Login handshake -/

/-- Method `Caller.GetLoginUUID` (caller.go 28-45). -/
def Caller.GetLoginUUID (env : Env) (c : Caller) : (String × Option GoError) × Caller :=
  let r := c.Client.request env Call.GetLoginUUID
  let c : Caller := { Client := r.2 }
  let resp := NewReturnResponse r.1.1 r.1.2
  match resp.Err with
  | some e => (("", some e), c)
  | none =>
    match resp.ReadAll with
    | (_, some err) => (("", some err), c)
    | (data, none) =>
      let results := env.uuidRegexp data
      if h : results.length ≠ 2 then
        (("", some (GoError.errorString "uuid does not match")), c)
      else
        ((results.get ⟨1, by omega⟩, none), c)

/-- Method `Caller.CheckLogin` (caller.go 48-66). -/
def Caller.CheckLogin (env : Env) (c : Caller) (uuid : String) :
    (Option CheckLoginResponse × Option GoError) × Caller :=
  let r := c.Client.request env (Call.CheckLogin uuid)
  let c : Caller := { Client := r.2 }
  let resp := NewReturnResponse r.1.1 r.1.2
  match resp.Err with
  | some e => ((none, some e), c)
  | none =>
    match resp.ReadAll with
    | (_, some err) => ((none, some err), c)
    | (data, none) =>
      let results := env.statusCodeRegexp data
      if h : results.length ≠ 2 then
        ((none, some (GoError.errorString "error status code match")), c)
      else
        let code := results.get ⟨1, by omega⟩
        ((some { Code := code, Raw := data }, none), c)

/-- Method `Caller.GetLoginInfo` (caller.go 69-105). -/
def Caller.GetLoginInfo (env : Env) (c : Caller) (body : String) :
    (Option LoginInfo × Option GoError) × Caller :=
  let results := env.redirectUriRegexp body
  if h : results.length ≠ 2 then
    ((none, some (GoError.errorString "redirect url does not match")), c)
  else
    match env.urlParse (results.get ⟨1, by omega⟩) with
    | Except.error err => ((none, some err), c)
    | Except.ok path =>
      match env.getDomainByHost path.Host with
      | Except.error err => ((none, some err), c)
      | Except.ok domain =>
        let client : OpenWechat.Client := { c.Client with domain := domain }
        let r := client.request env (Call.GetLoginInfo path.Text)
        let c : Caller := { Client := r.2 }
        let resp := NewReturnResponse r.1.1 r.1.2
        match resp.Err with
        | some e =>
          match e with
          | GoError.urlError _ _ uErrErr =>
            if env.errorText uErrErr == env.errorText env.missLocationHeader then
              ((none, some loginForbiddenError), c)
            else
              ((none, some e), c)
          | _ => ((none, some e), c)
        | none =>
          let d := resp.ScanXML env.unmarshalLoginInfo ({} : LoginInfo)
          let loginInfo := d.1
          match d.2 with
          | some err => ((none, some err), c)
          | none =>
            if !loginInfo.Ok then
              ((none, some (GoError.loginInfo loginInfo)), c)
            else
              ((some loginInfo, none), c)

/-- Method `Caller.SyncCheck` (caller.go 139-156). -/
def Caller.SyncCheck (env : Env) (c : Caller) (info : LoginInfo) (response : WebInitResponse) :
    (Option SyncCheckResponse × Option GoError) × Caller :=
  let r := c.Client.request env (Call.SyncCheck info response)
  let c : Caller := { Client := r.2 }
  let resp := NewReturnResponse r.1.1 r.1.2
  match resp.Err with
  | some e => ((none, some e), c)
  | none =>
    match resp.ReadAll with
    | (_, some err) => ((none, some err), c)
    | (data, none) =>
      let results := env.syncCheckRegexp data
      if h : results.length ≠ 3 then
        ((none, some (GoError.errorString "parse sync key failed")), c)
      else
        let retCode := results.get ⟨1, by omega⟩
        let selector := results.get ⟨2, by omega⟩
        ((some { RetCode := retCode, Selector := selector }, none), c)

/-! ## Sending -/

/-- Method `Caller.WebWxSendMsg` (caller.go 208-211). -/
def Caller.WebWxSendMsg (env : Env) (c : Caller) (msg : SendMessage) (info : LoginInfo)
    (request : BaseRequest) : (Option SentMessage × Option GoError) × Caller :=
  let r := c.Client.request env (Call.WebWxSendMsg msg info request)
  (getSuccessSentMessage env.unmarshalMessageResponse msg r.1.1 r.1.2, { Client := r.2 })

/-- Method `Caller.WebWxSendAppMsg` (caller.go 273-276). -/
def Caller.WebWxSendAppMsg (env : Env) (c : Caller) (msg : SendMessage) (req : BaseRequest) :
    (Option SentMessage × Option GoError) × Caller :=
  let r := c.Client.request env (Call.WebWxSendAppMsg msg req)
  (getSuccessSentMessage env.unmarshalMessageResponse msg r.1.1 r.1.2, { Client := r.2 })

/-- Method `Caller.UploadMedia` (caller.go 219-240). -/
def Caller.UploadMedia (env : Env) (c : Caller) (file : File) (request : BaseRequest)
    (info : LoginInfo) (fromUserName toUserName : String) :
    (Option UploadResponse × Option GoError) × Caller :=
  let r := c.Client.request env
    (Call.WebWxUploadMediaByChunk file request info fromUserName toUserName)
  let c : Caller := { Client := r.2 }
  let resp := NewReturnResponse r.1.1 r.1.2
  match resp.Err with
  | some e => ((none, some e), c)
  | none =>
    let d := resp.ScanJSON env.unmarshalUploadResponse ({} : UploadResponse)
    let item := d.1
    match d.2 with
    | some err => ((some item, some err), c)
    | none =>
      if !item.BaseResponse.Ok then
        ((some item, some (GoError.baseResponse item.BaseResponse)), c)
      else if item.MediaId.utf8ByteSize == 0 then
        ((some item, some (GoError.errorString "upload failed")), c)
      else
        ((some item, none), c)

/-- Method `Caller.WebWxSendImageMsg` (caller.go 243-254).  The outer `Option` is
`none` when the Go code would dereference a nil `*UploadResponse`. -/
def Caller.WebWxSendImageMsg (env : Env) (c : Caller) (file : File) (request : BaseRequest)
    (info : LoginInfo) (fromUserName toUserName : String) :
    Option ((Option SentMessage × Option GoError) × Caller) :=
  let u := c.UploadMedia env file request info fromUserName toUserName
  let c := u.2
  match u.1.2 with
  | some err => some ((none, some err), c)
  | none =>
    match u.1.1 with
    | none => none
    | some resp =>
      let msg := env.NewMediaSendMessage env.ImageMessage fromUserName toUserName resp.MediaId
      let r := c.Client.request env (Call.WebWxSendMsgImg msg request info)
      some (getSuccessSentMessage env.unmarshalMessageResponse msg r.1.1 r.1.2, { Client := r.2 })

/-- Method `Caller.WebWxSendFile` (caller.go 256-270).  The outer `Option` is `none`
when the Go code would dereference a nil `*UploadResponse`. -/
def Caller.WebWxSendFile (env : Env) (c : Caller) (file : File) (req : BaseRequest)
    (info : LoginInfo) (fromUserName toUserName : String) :
    Option ((Option SentMessage × Option GoError) × Caller) :=
  let u := c.UploadMedia env file req info fromUserName toUserName
  let c := u.2
  match u.1.2 with
  | some err => some ((none, some err), c)
  | none =>
    match u.1.1 with
    | none => none
    | some resp =>
      let stat := env.Stat file
      let appMsg := env.NewFileAppMessage stat resp.MediaId
      let x := env.XmlByte appMsg
      match x.2 with
      | some err => some ((none, some err), c)
      | none =>
        let msg := env.NewSendMessage env.AppMessage x.1 fromUserName toUserName ""
        some (c.WebWxSendAppMsg env msg req)

/-! ## Group membership -/

/-- Method `Caller.AddFriendIntoChatRoom` (caller.go 285-291). -/
def Caller.AddFriendIntoChatRoom (env : Env) (c : Caller) (req : BaseRequest) (info : LoginInfo)
    (group : Group) (friends : List Friend) : Option GoError × Caller :=
  if friends.length == 0 then
    (some (GoError.errorString "no friends found"), c)
  else
    let r := c.Client.request env (Call.AddMemberIntoChatRoom req info group friends)
    let resp := NewReturnResponse r.1.1 r.1.2
    (parseBaseResponseError env.unmarshalBaseResponse resp, { Client := r.2 })

/-- Method `Caller.RemoveFriendFromChatRoom` (caller.go 294-300). -/
def Caller.RemoveFriendFromChatRoom (env : Env) (c : Caller) (req : BaseRequest)
    (info : LoginInfo) (group : Group) (users : List User) : Option GoError × Caller :=
  if users.length == 0 then
    (some (GoError.errorString "no users found"), c)
  else
    let r := c.Client.request env (Call.RemoveMemberFromChatRoom req info group users)
    let resp := NewReturnResponse r.1.1 r.1.2
    (parseBaseResponseError env.unmarshalBaseResponse resp, { Client := r.2 })

/-! ## Concrete environments used to instantiate the theorems -/

/-- An environment with fixed replies: the transport answers every request with
the body `body` and no error, the patterns match nothing, every decoder
succeeds with the zero value. -/
def Env.fixture (body : String) : Env where
  transport := fun _ _ => ({ Body := (body, none) }, none)
  uuidRegexp := fun _ => []
  statusCodeRegexp := fun _ => []
  redirectUriRegexp := fun _ => []
  syncCheckRegexp := fun _ => []
  urlParse := fun s => Except.ok { Host := s, Text := s }
  getDomainByHost := fun h => Except.ok h
  missLocationHeader := GoError.errorString "missing Location header"
  errorText := fun e =>
    match e with
    | GoError.errorString t => t
    | GoError.other t => t
    | _ => ""
  unmarshalBaseResponse := fun _ => ({}, none)
  unmarshalMessageResponse := fun _ => ({}, none)
  unmarshalUploadResponse := fun _ => ({}, none)
  unmarshalLoginInfo := fun _ => ({}, none)
  ImageMessage := 3
  AppMessage := 49
  NewMediaSendMessage := fun t src dst m =>
    { MsgType := t, FromUserName := src, ToUserName := dst, MediaId := m }
  NewSendMessage := fun t content src dst m =>
    { MsgType := t, Content := content, FromUserName := src, ToUserName := dst, MediaId := m }
  Stat := fun f => { ref := f.ref }
  NewFileAppMessage := fun st _ => { ref := st.ref }
  XmlByte := fun _ => ("<appmsg></appmsg>", none)

/-- An outgoing text message used in the examples. -/
def helloMessage : SendMessage :=
  { MsgType := 1, Content := "hello", FromUserName := "@me", ToUserName := "@you" }

/-- Modelled from the spec: the check-login codes of LoginStatus that are
recognised (Waiting, Scanned, Confirmed, Expired); the constants live outside
`caller.go`, the values are those of the web protocol. -/
def recognizedStatusCodes : List String := ["408", "201", "200", "400"]

/-- An environment whose check-login reply carries the status code 999. -/
def Env.statusCode999 : Env :=
  { Env.fixture "window.code=999;" with
    statusCodeRegexp := fun _ => ["window.code=999;", "999"] }

/-- An environment for the login-info fetch: the body's redirect URL is
`https://wx2.qq.com/cgi-bin/mmwebwx-bin/webwxnewloginpage`, its host is the
known domain `wx2.qq.com`, and the fetch fails with the error `e`. -/
def Env.redirectFailing (e : GoError) : Env :=
  { Env.fixture "" with
    redirectUriRegexp := fun _ =>
      ["window.redirect_uri=\"https://wx2.qq.com/cgi-bin/mmwebwx-bin/webwxnewloginpage\"",
       "https://wx2.qq.com/cgi-bin/mmwebwx-bin/webwxnewloginpage"]
    urlParse := fun s => Except.ok { Host := "wx2.qq.com", Text := s }
    transport := fun _ _ => ({}, some e) }

/-- The transport error of a redirect response without a location header. -/
def missingLocationFailure : GoError :=
  GoError.urlError "Get" "https://wx2.qq.com/cgi-bin/mmwebwx-bin/webwxnewloginpage"
    (GoError.errorString "missing Location header")

/-- An environment whose upload reply decodes to an ok BaseResponse and an
empty media identifier. -/
def Env.emptyMediaId : Env :=
  { Env.fixture "{}" with
    unmarshalUploadResponse := fun _ => ({ BaseResponse := { ErrCode := 0 }, MediaId := "" }, none) }

/-! ## Theorems -/

/-- The method `UploadMedia` issues exactly the upload request, whatever the outcome. -/
theorem UploadMedia_client (env : Env) (c : Caller) (file : File) (request : BaseRequest)
    (info : LoginInfo) (fromUserName toUserName : String) :
    (c.UploadMedia env file request info fromUserName toUserName).2
      = { Client := { c.Client with issued := c.Client.issued ++
            [Call.WebWxUploadMediaByChunk file request info fromUserName toUserName] } } := by
  simp only [Caller.UploadMedia, Client.request]
  repeat' split
  all_goals rfl

/-- When `UploadMedia` returns a nil error it returns a non-nil response with a
non-empty media identifier. -/
theorem UploadMedia_nil_error (env : Env) (c : Caller) (file : File) (request : BaseRequest)
    (info : LoginInfo) (fromUserName toUserName : String)
    (h : (c.UploadMedia env file request info fromUserName toUserName).1.2 = none) :
    ∃ item : UploadResponse,
      (c.UploadMedia env file request info fromUserName toUserName).1.1 = some item ∧
      item.MediaId ≠ "" := by
  revert h
  simp only [Caller.UploadMedia]
  split
  · simp
  · split
    · simp
    · split
      · simp
      · split
        · simp
        · rename_i hsize
          intro _
          refine ⟨_, rfl, ?_⟩
          intro hempty
          apply hsize
          rw [hempty]
          rfl

/-- C1: when the transport succeeded and the reply decodes to an item whose
BaseResponse is `b`, `parseBaseResponseError` returns nil exactly when
`b.ErrCode = 0`, and for a non-zero `ErrCode` it returns the non-nil error `b`
itself. -/
theorem parseBaseResponseError_nil_iff_ok
    (unmarshal : String → BaseResponseItem × Option GoError) (resp : ReturnResponse)
    (item : BaseResponseItem)
    (herr : resp.Err = none)
    (hscan : resp.ScanJSON unmarshal ({} : BaseResponseItem) = (item, none)) :
    (parseBaseResponseError unmarshal resp = none ↔ item.BaseResponse.ErrCode = 0) ∧
    (item.BaseResponse.ErrCode ≠ 0 →
      parseBaseResponseError unmarshal resp = some (GoError.baseResponse item.BaseResponse)) := by
  by_cases h0 : item.BaseResponse.ErrCode = 0
  · simp [parseBaseResponseError, herr, hscan, BaseResponse.Ok, h0]
  · simp [parseBaseResponseError, herr, hscan, BaseResponse.Ok, h0]

/-- Witness for C1: a reply decoding to `{ErrCode: 1101, ErrMsg: "logout"}`. -/
theorem parseBaseResponseError_nil_iff_ok_witness :
    (parseBaseResponseError
        (fun _ => ({ BaseResponse := { ErrCode := 1101, ErrMsg := "logout" } }, none))
        (NewReturnResponse {} none) = none ↔ (1101 : Int) = 0) ∧
    ((1101 : Int) ≠ 0 →
      parseBaseResponseError
        (fun _ => ({ BaseResponse := { ErrCode := 1101, ErrMsg := "logout" } }, none))
        (NewReturnResponse {} none)
        = some (GoError.baseResponse { ErrCode := 1101, ErrMsg := "logout" })) :=
  parseBaseResponseError_nil_iff_ok
    (fun _ => ({ BaseResponse := { ErrCode := 1101, ErrMsg := "logout" } }, none))
    (NewReturnResponse {} none)
    { BaseResponse := { ErrCode := 1101, ErrMsg := "logout" } } rfl rfl

/-- C2: when the transport succeeded and the reply decodes to a MessageResponse
`item` with an ok BaseResponse, `getSuccessSentMessage` returns a nil error and
a SentMessage wrapping the given `msg` whose `MsgId` is `item.MsgID` unchanged;
`WebWxSendMsg` and `WebWxSendAppMsg` return the same for such a transport
reply. -/
theorem getSuccessSentMessage_success_keeps_id
    (env : Env) (c : Caller) (msg : SendMessage) (info : LoginInfo) (request : BaseRequest)
    (resp : HttpResponse) (item : MessageResponse)
    (hscan : (NewReturnResponse resp none).ScanJSON env.unmarshalMessageResponse
      ({} : MessageResponse) = (item, none))
    (hok : item.BaseResponse.ErrCode = 0) :
    getSuccessSentMessage env.unmarshalMessageResponse msg resp none
      = (some { SendMessage := msg, MsgId := item.MsgID }, none) ∧
    (env.transport c.Client (Call.WebWxSendMsg msg info request) = (resp, none) →
      (c.WebWxSendMsg env msg info request).1
        = (some { SendMessage := msg, MsgId := item.MsgID }, none)) ∧
    (env.transport c.Client (Call.WebWxSendAppMsg msg request) = (resp, none) →
      (c.WebWxSendAppMsg env msg request).1
        = (some { SendMessage := msg, MsgId := item.MsgID }, none)) := by
  have key : getSuccessSentMessage env.unmarshalMessageResponse msg resp none
      = (some { SendMessage := msg, MsgId := item.MsgID }, none) := by
    simp only [getSuccessSentMessage, parseMessageResponseError, hscan]
    simp [NewReturnResponse, ReturnResponse.Err, BaseResponse.Ok, hok]
  refine ⟨key, ?_, ?_⟩
  · intro htr
    simp only [Caller.WebWxSendMsg, Client.request, htr, key]
  · intro htr
    simp only [Caller.WebWxSendAppMsg, Client.request, htr, key]

/-- Witness for C2: the server assigns the identifier "12345". -/
theorem getSuccessSentMessage_success_keeps_id_witness :
    getSuccessSentMessage (fun _ => ({ MsgID := "12345" }, none)) helloMessage {} none
      = (some { SendMessage := helloMessage, MsgId := "12345" }, none) :=
  (getSuccessSentMessage_success_keeps_id
    { Env.fixture "" with unmarshalMessageResponse := fun _ => ({ MsgID := "12345" }, none) }
    { Client := {} } helloMessage {} { ref := 0 } {} { MsgID := "12345" } rfl rfl).1

/-- C3: whenever the send fails (transport error, unreadable or undecodable
reply, or a BaseResponse with a non-zero ErrCode), `getSuccessSentMessage`
returns the non-nil error together with a non-nil SentMessage that wraps the
given `msg` and whose `MsgId` is still the empty string; whenever it returns an
error at all the `MsgId` is unassigned. -/
theorem getSuccessSentMessage_failure_leaves_id_unassigned
    (unmarshal : String → MessageResponse × Option GoError) (msg : SendMessage)
    (resp : HttpResponse) :
    (∀ e : GoError, getSuccessSentMessage unmarshal msg resp (some e)
        = (some { SendMessage := msg, MsgId := "" }, some e)) ∧
    (∀ (item : MessageResponse) (e : GoError),
      (NewReturnResponse resp none).ScanJSON unmarshal ({} : MessageResponse) = (item, some e) →
      getSuccessSentMessage unmarshal msg resp none
        = (some { SendMessage := msg, MsgId := "" }, some e)) ∧
    (∀ item : MessageResponse,
      (NewReturnResponse resp none).ScanJSON unmarshal ({} : MessageResponse) = (item, none) →
      item.BaseResponse.ErrCode ≠ 0 →
      getSuccessSentMessage unmarshal msg resp none
        = (some { SendMessage := msg, MsgId := "" },
            some (GoError.baseResponse item.BaseResponse))) ∧
    (∀ err : Option GoError, (getSuccessSentMessage unmarshal msg resp err).2 ≠ none →
      (getSuccessSentMessage unmarshal msg resp err).1
        = some { SendMessage := msg, MsgId := "" }) := by
  refine ⟨?_, ?_, ?_, ?_⟩
  · intro e
    simp [getSuccessSentMessage, parseMessageResponseError, NewReturnResponse,
      ReturnResponse.Err]
  · intro item e hscan
    simp only [getSuccessSentMessage, parseMessageResponseError, hscan]
    simp [NewReturnResponse, ReturnResponse.Err]
  · intro item hscan hne
    simp only [getSuccessSentMessage, parseMessageResponseError, hscan]
    simp [NewReturnResponse, ReturnResponse.Err, BaseResponse.Ok, hne]
  · intro err
    cases err with
    | some e =>
      simp [getSuccessSentMessage, parseMessageResponseError, NewReturnResponse,
        ReturnResponse.Err]
    | none =>
      simp only [getSuccessSentMessage, parseMessageResponseError]
      simp only [NewReturnResponse, ReturnResponse.Err]
      cases hd : (ReturnResponse.ScanJSON { Response := resp, err := none } unmarshal
          ({} : MessageResponse)).2 with
      | some e => simp
      | none =>
        by_cases hok : (ReturnResponse.ScanJSON { Response := resp, err := none } unmarshal
          ({} : MessageResponse)).1.BaseResponse.Ok = true
        · simp [hok]
        · simp [hok]

/-- Witness for C3: the server answers `{ErrCode: 1, ErrMsg: "param error"}`
with an identifier that must not be assigned. -/
theorem getSuccessSentMessage_failure_leaves_id_unassigned_witness :
    getSuccessSentMessage
        (fun _ => ({ BaseResponse := { ErrCode := 1, ErrMsg := "param error" },
                     MsgID := "12345" }, none)) helloMessage {} none
      = (some { SendMessage := helloMessage, MsgId := "" },
          some (GoError.baseResponse { ErrCode := 1, ErrMsg := "param error" })) :=
  (getSuccessSentMessage_failure_leaves_id_unassigned
    (fun _ => ({ BaseResponse := { ErrCode := 1, ErrMsg := "param error" },
                 MsgID := "12345" }, none)) helloMessage {}).2.2.1
    { BaseResponse := { ErrCode := 1, ErrMsg := "param error" }, MsgID := "12345" }
    rfl (by decide)

/-- C6: for a sync-check reply body `data`, `SyncCheck` returns a nil error
exactly when the pattern's submatch result has length 3; then the response has
`RetCode` capture group 1 and `Selector` capture group 2; otherwise it returns
nil and a non-nil error. -/
theorem SyncCheck_submatch
    (env : Env) (c : Caller) (info : LoginInfo) (response : WebInitResponse)
    (resp : HttpResponse) (data : String)
    (htr : env.transport c.Client (Call.SyncCheck info response) = (resp, none))
    (hbody : resp.Body = (data, none)) :
    ((c.SyncCheck env info response).1.2 = none ↔ (env.syncCheckRegexp data).length = 3) ∧
    (∀ h : (env.syncCheckRegexp data).length = 3,
      (c.SyncCheck env info response).1
        = (some { RetCode := (env.syncCheckRegexp data).get ⟨1, by omega⟩,
                  Selector := (env.syncCheckRegexp data).get ⟨2, by omega⟩ }, none)) ∧
    (∀ whole retCode selector : String,
      env.syncCheckRegexp data = [whole, retCode, selector] →
      (c.SyncCheck env info response).1
        = (some { RetCode := retCode, Selector := selector }, none)) ∧
    ((env.syncCheckRegexp data).length ≠ 3 →
      (c.SyncCheck env info response).1
        = (none, some (GoError.errorString "parse sync key failed"))) := by
  have hlen3 : ∀ h : (env.syncCheckRegexp data).length = 3,
      (c.SyncCheck env info response).1
        = (some { RetCode := (env.syncCheckRegexp data).get ⟨1, by omega⟩,
                  Selector := (env.syncCheckRegexp data).get ⟨2, by omega⟩ }, none) := by
    intro h
    simp [Caller.SyncCheck, Client.request, htr, NewReturnResponse, ReturnResponse.Err,
      ReturnResponse.ReadAll, hbody, h]
  have hne : (env.syncCheckRegexp data).length ≠ 3 →
      (c.SyncCheck env info response).1
        = (none, some (GoError.errorString "parse sync key failed")) := by
    intro h
    simp [Caller.SyncCheck, Client.request, htr, NewReturnResponse, ReturnResponse.Err,
      ReturnResponse.ReadAll, hbody, h]
  refine ⟨?_, hlen3, ?_, hne⟩
  · constructor
    · intro hnil
      by_contra h
      rw [hne h] at hnil
      simp at hnil
    · intro h
      rw [hlen3 h]
  · intro whole retCode selector hre
    have h : (env.syncCheckRegexp data).length = 3 := by simp [hre]
    rw [hlen3 h]
    simp [hre]

/-- Witness for C6: a body with retcode "0" and selector "2". -/
theorem SyncCheck_submatch_witness :
    (Caller.SyncCheck
      { Env.fixture "retcode\":\"0\",\"selector\":\"2\"" with
        syncCheckRegexp := fun _ =>
          ["retcode\":\"0\",\"selector\":\"2\"", "0", "2"] }
      { Client := {} } {} { ref := 0 }).1
      = (some { RetCode := "0", Selector := "2" }, none) :=
  (SyncCheck_submatch
    { Env.fixture "retcode\":\"0\",\"selector\":\"2\"" with
      syncCheckRegexp := fun _ =>
        ["retcode\":\"0\",\"selector\":\"2\"", "0", "2"] }
    { Client := {} } {} { ref := 0 }
    { Body := ("retcode\":\"0\",\"selector\":\"2\"", none) }
    "retcode\":\"0\",\"selector\":\"2\"" rfl rfl).2.2.1
    "retcode\":\"0\",\"selector\":\"2\"" "0" "2" rfl

/-- C8 (counterexample): for a check-login reply whose status code is 999, not
one of the recognised codes, `CheckLogin` returns a CheckLoginResponse carrying
the code 999 and a nil error. -/
theorem CheckLogin_unrecognized_code_returned :
    "999" ∉ recognizedStatusCodes ∧
    (Caller.CheckLogin Env.statusCode999 { Client := {} } "uuid").1
      = (some { Code := "999", Raw := "window.code=999;" }, none) := by
  constructor
  · decide
  · rfl

/-- C8 (amended): for a check-login reply body `data`, when the status pattern's
submatch result has length 2, `CheckLogin` returns a nil error and a
CheckLoginResponse whose `Code` is capture group 1, whatever that code is, and
whose `Raw` is the body; it fails only when the result has another length. -/
theorem CheckLogin_returns_any_code
    (env : Env) (c : Caller) (uuid : String) (resp : HttpResponse) (data : String)
    (htr : env.transport c.Client (Call.CheckLogin uuid) = (resp, none))
    (hbody : resp.Body = (data, none)) :
    (∀ whole code : String, env.statusCodeRegexp data = [whole, code] →
      (c.CheckLogin env uuid).1 = (some { Code := code, Raw := data }, none)) ∧
    ((env.statusCodeRegexp data).length ≠ 2 →
      (c.CheckLogin env uuid).1
        = (none, some (GoError.errorString "error status code match"))) := by
  constructor
  · intro whole code hre
    simp [Caller.CheckLogin, Client.request, htr, NewReturnResponse, ReturnResponse.Err,
      ReturnResponse.ReadAll, hbody, hre]
  · intro h
    simp [Caller.CheckLogin, Client.request, htr, NewReturnResponse, ReturnResponse.Err,
      ReturnResponse.ReadAll, hbody, h]

/-- Witness for C8 (amended): the reply with status code 999. -/
theorem CheckLogin_returns_any_code_witness :
    (Caller.CheckLogin Env.statusCode999 { Client := {} } "uuid").1
      = (some { Code := "999", Raw := "window.code=999;" }, none) :=
  (CheckLogin_returns_any_code Env.statusCode999 { Client := {} } "uuid"
    { Body := ("window.code=999;", none) } "window.code=999;" rfl rfl).1
    "window.code=999;" "999" rfl

/-- C7: in `GetLoginInfo`, for a body with a valid redirect URL whose fetch
fails with the transport error `e`: when `e` is a `*url.Error` whose inner
error has the text of `missLocationHeader`, the returned error is
`loginForbiddenError`, which differs from `e`; for every other `e` the returned
error is `e` itself; in both cases the returned LoginInfo is nil. -/
theorem GetLoginInfo_missing_location_is_forbidden
    (env : Env) (c : Caller) (body whole uri : String) (path : URL) (domain : String)
    (resp : HttpResponse) (e : GoError)
    (hre : env.redirectUriRegexp body = [whole, uri])
    (hparse : env.urlParse uri = Except.ok path)
    (hdomain : env.getDomainByHost path.Host = Except.ok domain)
    (htr : env.transport { c.Client with domain := domain } (Call.GetLoginInfo path.Text)
      = (resp, some e)) :
    (∀ (op url : String) (inner : GoError), e = GoError.urlError op url inner →
      env.errorText inner = env.errorText env.missLocationHeader →
      (c.GetLoginInfo env body).1 = (none, some loginForbiddenError) ∧
      loginForbiddenError ≠ e) ∧
    ((∀ (op url : String) (inner : GoError), e = GoError.urlError op url inner →
        env.errorText inner ≠ env.errorText env.missLocationHeader) →
      (c.GetLoginInfo env body).1 = (none, some e)) := by
  constructor
  · intro op url inner he htext
    subst he
    constructor
    · simp [Caller.GetLoginInfo, hre, hparse, hdomain, Client.request, htr, NewReturnResponse,
        ReturnResponse.Err, htext]
    · simp [loginForbiddenError]
  · intro hother
    cases e with
    | urlError op url inner =>
      have hne := hother op url inner rfl
      simp [Caller.GetLoginInfo, hre, hparse, hdomain, Client.request, htr, NewReturnResponse,
        ReturnResponse.Err, hne]
    | errorString t =>
      simp [Caller.GetLoginInfo, hre, hparse, hdomain, Client.request, htr, NewReturnResponse,
        ReturnResponse.Err]
    | baseResponse b =>
      simp [Caller.GetLoginInfo, hre, hparse, hdomain, Client.request, htr, NewReturnResponse,
        ReturnResponse.Err]
    | loginInfo l =>
      simp [Caller.GetLoginInfo, hre, hparse, hdomain, Client.request, htr, NewReturnResponse,
        ReturnResponse.Err]
    | other t =>
      simp [Caller.GetLoginInfo, hre, hparse, hdomain, Client.request, htr, NewReturnResponse,
        ReturnResponse.Err]

/-- Witness for C7: the fetch fails with a `*url.Error` wrapping "missing
Location header". -/
theorem GetLoginInfo_missing_location_is_forbidden_witness :
    (Caller.GetLoginInfo (Env.redirectFailing missingLocationFailure) { Client := {} } "").1
      = (none, some loginForbiddenError) ∧
    loginForbiddenError ≠ missingLocationFailure :=
  (GetLoginInfo_missing_location_is_forbidden (Env.redirectFailing missingLocationFailure)
    { Client := {} } ""
    "window.redirect_uri=\"https://wx2.qq.com/cgi-bin/mmwebwx-bin/webwxnewloginpage\""
    "https://wx2.qq.com/cgi-bin/mmwebwx-bin/webwxnewloginpage"
    { Host := "wx2.qq.com",
      Text := "https://wx2.qq.com/cgi-bin/mmwebwx-bin/webwxnewloginpage" }
    "wx2.qq.com" {} missingLocationFailure rfl rfl rfl rfl).1
    "Get" "https://wx2.qq.com/cgi-bin/mmwebwx-bin/webwxnewloginpage"
    (GoError.errorString "missing Location header") rfl rfl

/-- C10: `GetLoginInfo` assigns the client's domain exactly when the body's
redirect URL is matched, parses, and its host maps to a known domain.  Then the
fetch is issued by the client that already has the new domain and the domain
stays set whether the fetch, the XML decode or the ok-check fails or not;
otherwise `GetLoginInfo` returns nil with an error and leaves the client as it
was: same domain, no transport request. -/
theorem GetLoginInfo_domain_frame (env : Env) (c : Caller) (body : String) :
    (∀ (whole uri : String) (path : URL) (domain : String),
      env.redirectUriRegexp body = [whole, uri] →
      env.urlParse uri = Except.ok path →
      env.getDomainByHost path.Host = Except.ok domain →
      (c.GetLoginInfo env body).2.Client
          = { domain := domain, issued := c.Client.issued ++ [Call.GetLoginInfo path.Text] } ∧
      (∀ (resp : HttpResponse) (e : GoError),
        env.transport { c.Client with domain := domain } (Call.GetLoginInfo path.Text)
          = (resp, some e) →
        (c.GetLoginInfo env body).1.1 = none ∧ (c.GetLoginInfo env body).1.2 ≠ none) ∧
      (∀ (resp : HttpResponse) (info : LoginInfo) (e : GoError),
        env.transport { c.Client with domain := domain } (Call.GetLoginInfo path.Text)
          = (resp, none) →
        (NewReturnResponse resp none).ScanXML env.unmarshalLoginInfo ({} : LoginInfo)
          = (info, some e) →
        (c.GetLoginInfo env body).1 = (none, some e)) ∧
      (∀ (resp : HttpResponse) (info : LoginInfo),
        env.transport { c.Client with domain := domain } (Call.GetLoginInfo path.Text)
          = (resp, none) →
        (NewReturnResponse resp none).ScanXML env.unmarshalLoginInfo ({} : LoginInfo)
          = (info, none) →
        (info.Ret ≠ 0 → (c.GetLoginInfo env body).1 = (none, some (GoError.loginInfo info))) ∧
        (info.Ret = 0 → (c.GetLoginInfo env body).1 = (some info, none)))) ∧
    ((¬ ∃ (whole uri : String) (path : URL) (domain : String),
        env.redirectUriRegexp body = [whole, uri] ∧
        env.urlParse uri = Except.ok path ∧
        env.getDomainByHost path.Host = Except.ok domain) →
      (c.GetLoginInfo env body).2 = c ∧
      (c.GetLoginInfo env body).1.1 = none ∧
      (c.GetLoginInfo env body).1.2 ≠ none) := by
  constructor
  · intro whole uri path domain hre hparse hdomain
    refine ⟨?_, ?_, ?_, ?_⟩
    · simp only [Caller.GetLoginInfo, hre, hparse, hdomain, Client.request, NewReturnResponse,
        ReturnResponse.Err, List.length_cons, List.length_nil, ne_eq, not_true_eq_false,
        dite_false, List.get_eq_getElem, List.getElem_cons_succ, List.getElem_cons_zero,
        Nat.reduceAdd]
      repeat' split
      all_goals rfl
    · intro resp e htr
      cases e <;>
        simp [Caller.GetLoginInfo, hre, hparse, hdomain, Client.request, htr,
          NewReturnResponse, ReturnResponse.Err]
      split <;> simp
    · intro resp info e htr hscan
      simp only [NewReturnResponse] at hscan
      simp [Caller.GetLoginInfo, hre, hparse, hdomain, Client.request, htr,
        NewReturnResponse, ReturnResponse.Err, hscan]
    · intro resp info htr hscan
      simp only [NewReturnResponse] at hscan
      constructor
      · intro hret
        simp [Caller.GetLoginInfo, hre, hparse, hdomain, Client.request, htr,
          NewReturnResponse, ReturnResponse.Err, hscan, LoginInfo.Ok, hret]
      · intro hret
        simp [Caller.GetLoginInfo, hre, hparse, hdomain, Client.request, htr,
          NewReturnResponse, ReturnResponse.Err, hscan, LoginInfo.Ok, hret]
  · intro hinvalid
    by_cases hlen : (env.redirectUriRegexp body).length = 2
    · obtain ⟨whole, uri, hre⟩ := List.length_eq_two.mp hlen
      cases hparse : env.urlParse uri with
      | error e =>
        simp [Caller.GetLoginInfo, hre, hparse]
      | ok path =>
        cases hdomain : env.getDomainByHost path.Host with
        | error e =>
          simp [Caller.GetLoginInfo, hre, hparse, hdomain]
        | ok domain =>
          exact absurd ⟨whole, uri, path, domain, hre, hparse, hdomain⟩ hinvalid
    · simp [Caller.GetLoginInfo, hlen]

/-- C4: when the upload's transport succeeds and the decoded UploadResponse has
an ok BaseResponse but an empty MediaId, `UploadMedia` returns the error
"upload failed", and `WebWxSendImageMsg` and `WebWxSendFile` return that error
with a nil SentMessage after issuing the upload request only.  In general each
of the two either issues the upload request only, or `UploadMedia` returned a
nil error with a non-empty MediaId and the send request follows the upload. -/
theorem upload_empty_media_id_blocks_send
    (env : Env) (c : Caller) (file : File) (request : BaseRequest) (info : LoginInfo)
    (fromUserName toUserName : String) :
    (∀ (resp : HttpResponse) (item : UploadResponse),
      env.transport c.Client
          (Call.WebWxUploadMediaByChunk file request info fromUserName toUserName)
        = (resp, none) →
      (NewReturnResponse resp none).ScanJSON env.unmarshalUploadResponse ({} : UploadResponse)
        = (item, none) →
      item.BaseResponse.ErrCode = 0 →
      item.MediaId = "" →
      (c.UploadMedia env file request info fromUserName toUserName).1
        = (some item, some (GoError.errorString "upload failed")) ∧
      c.WebWxSendImageMsg env file request info fromUserName toUserName
        = some ((none, some (GoError.errorString "upload failed")),
            { Client := { c.Client with issued := c.Client.issued ++
                [Call.WebWxUploadMediaByChunk file request info fromUserName toUserName] } }) ∧
      c.WebWxSendFile env file request info fromUserName toUserName
        = some ((none, some (GoError.errorString "upload failed")),
            { Client := { c.Client with issued := c.Client.issued ++
                [Call.WebWxUploadMediaByChunk file request info fromUserName toUserName] } })) ∧
    (∃ out, c.WebWxSendImageMsg env file request info fromUserName toUserName = some out ∧
      (out.2.Client.issued = c.Client.issued ++
          [Call.WebWxUploadMediaByChunk file request info fromUserName toUserName] ∨
       ∃ item : UploadResponse,
        (c.UploadMedia env file request info fromUserName toUserName).1 = (some item, none) ∧
        item.MediaId ≠ "" ∧
        out.2.Client.issued = c.Client.issued ++
          [Call.WebWxUploadMediaByChunk file request info fromUserName toUserName,
           Call.WebWxSendMsgImg
             (env.NewMediaSendMessage env.ImageMessage fromUserName toUserName item.MediaId)
             request info])) ∧
    (∃ out, c.WebWxSendFile env file request info fromUserName toUserName = some out ∧
      (out.2.Client.issued = c.Client.issued ++
          [Call.WebWxUploadMediaByChunk file request info fromUserName toUserName] ∨
       ∃ (item : UploadResponse) (content : String),
        (c.UploadMedia env file request info fromUserName toUserName).1 = (some item, none) ∧
        item.MediaId ≠ "" ∧
        env.XmlByte (env.NewFileAppMessage (env.Stat file) item.MediaId) = (content, none) ∧
        out.2.Client.issued = c.Client.issued ++
          [Call.WebWxUploadMediaByChunk file request info fromUserName toUserName,
           Call.WebWxSendAppMsg
             (env.NewSendMessage env.AppMessage content fromUserName toUserName "")
             request])) := by
  have hclient := UploadMedia_client env c file request info fromUserName toUserName
  refine ⟨?_, ?_, ?_⟩
  · intro resp item htr hscan hok hempty
    have hup : (c.UploadMedia env file request info fromUserName toUserName).1
        = (some item, some (GoError.errorString "upload failed")) := by
      simp only [NewReturnResponse] at hscan
      have hsize : (item.MediaId.utf8ByteSize == 0) = true := by
        rw [hempty]
        rfl
      simp [Caller.UploadMedia, Client.request, htr, NewReturnResponse, ReturnResponse.Err,
        hscan, BaseResponse.Ok, hok, hsize]
    refine ⟨hup, ?_, ?_⟩
    · simp only [Caller.WebWxSendImageMsg, hup, hclient]
    · simp only [Caller.WebWxSendFile, hup, hclient]
  · cases herr : (c.UploadMedia env file request info fromUserName toUserName).1.2 with
    | some e =>
      refine ⟨((none, some e), (c.UploadMedia env file request info fromUserName toUserName).2),
        ?_, Or.inl ?_⟩
      · simp only [Caller.WebWxSendImageMsg, herr]
      · simp only [hclient]
    | none =>
      obtain ⟨item, hitem, hmedia⟩ :=
        UploadMedia_nil_error env c file request info fromUserName toUserName herr
      have hsend : c.WebWxSendImageMsg env file request info fromUserName toUserName
          = some (getSuccessSentMessage env.unmarshalMessageResponse
              (env.NewMediaSendMessage env.ImageMessage fromUserName toUserName item.MediaId)
              ((c.UploadMedia env file request info fromUserName toUserName).2.Client.request env
                (Call.WebWxSendMsgImg
                  (env.NewMediaSendMessage env.ImageMessage fromUserName toUserName item.MediaId)
                  request info)).1.1
              ((c.UploadMedia env file request info fromUserName toUserName).2.Client.request env
                (Call.WebWxSendMsgImg
                  (env.NewMediaSendMessage env.ImageMessage fromUserName toUserName item.MediaId)
                  request info)).1.2,
              { Client :=
                ((c.UploadMedia env file request info fromUserName toUserName).2.Client.request env
                  (Call.WebWxSendMsgImg
                    (env.NewMediaSendMessage env.ImageMessage fromUserName toUserName
                      item.MediaId)
                    request info)).2 }) := by
        simp only [Caller.WebWxSendImageMsg, herr, hitem]
      refine ⟨_, hsend, Or.inr ⟨item, Prod.ext hitem herr, hmedia, ?_⟩⟩
      simp [Client.request, hclient]
  · cases herr : (c.UploadMedia env file request info fromUserName toUserName).1.2 with
    | some e =>
      refine ⟨((none, some e), (c.UploadMedia env file request info fromUserName toUserName).2),
        ?_, Or.inl ?_⟩
      · simp only [Caller.WebWxSendFile, herr]
      · simp only [hclient]
    | none =>
      obtain ⟨item, hitem, hmedia⟩ :=
        UploadMedia_nil_error env c file request info fromUserName toUserName herr
      cases hxml : (env.XmlByte (env.NewFileAppMessage (env.Stat file) item.MediaId)).2 with
      | some e =>
        refine ⟨((none, some e),
          (c.UploadMedia env file request info fromUserName toUserName).2), ?_, Or.inl ?_⟩
        · simp only [Caller.WebWxSendFile, herr, hitem, hxml]
        · simp only [hclient]
      | none =>
        have hsend : c.WebWxSendFile env file request info fromUserName toUserName
            = some ((c.UploadMedia env file request info fromUserName toUserName).2.WebWxSendAppMsg
                env
                (env.NewSendMessage env.AppMessage
                  (env.XmlByte (env.NewFileAppMessage (env.Stat file) item.MediaId)).1
                  fromUserName toUserName "")
                request) := by
          simp only [Caller.WebWxSendFile, herr, hitem, hxml]
        refine ⟨_, hsend, Or.inr ⟨item, _, Prod.ext hitem herr, hmedia, Prod.ext rfl hxml, ?_⟩⟩
        simp [Caller.WebWxSendAppMsg, Client.request, hclient]

/-- Witness for C4: the upload reply decodes to `{BaseResponse ok, MediaId ""}`. -/
theorem upload_empty_media_id_blocks_send_witness :
    (Caller.UploadMedia Env.emptyMediaId { Client := {} } { ref := 0 } { ref := 0 } {}
        "@me" "@you").1
      = (some {}, some (GoError.errorString "upload failed")) ∧
    Caller.WebWxSendImageMsg Env.emptyMediaId { Client := {} } { ref := 0 } { ref := 0 } {}
        "@me" "@you"
      = some ((none, some (GoError.errorString "upload failed")),
          { Client := { issued :=
              [Call.WebWxUploadMediaByChunk { ref := 0 } { ref := 0 } {} "@me" "@you"] } }) ∧
    Caller.WebWxSendFile Env.emptyMediaId { Client := {} } { ref := 0 } { ref := 0 } {}
        "@me" "@you"
      = some ((none, some (GoError.errorString "upload failed")),
          { Client := { issued :=
              [Call.WebWxUploadMediaByChunk { ref := 0 } { ref := 0 } {} "@me" "@you"] } }) :=
  (upload_empty_media_id_blocks_send Env.emptyMediaId { Client := {} } { ref := 0 } { ref := 0 }
    {} "@me" "@you").1 { Body := ("{}", none) } {} rfl rfl rfl rfl

/-- C9: `AddFriendIntoChatRoom` with an empty friends list and
`RemoveFriendFromChatRoom` with an empty users list return a non-nil error and
leave the caller as it was, so no transport request is issued; with a non-empty
list each issues its one request and returns what `parseBaseResponseError`
returns for the transport result. -/
theorem group_membership_requires_members
    (env : Env) (c : Caller) (req : BaseRequest) (info : LoginInfo) (group : Group) :
    c.AddFriendIntoChatRoom env req info group []
      = (some (GoError.errorString "no friends found"), c) ∧
    c.RemoveFriendFromChatRoom env req info group []
      = (some (GoError.errorString "no users found"), c) ∧
    (∀ friends : List Friend, friends ≠ [] →
      c.AddFriendIntoChatRoom env req info group friends
        = (parseBaseResponseError env.unmarshalBaseResponse
            (NewReturnResponse
              (env.transport c.Client (Call.AddMemberIntoChatRoom req info group friends)).1
              (env.transport c.Client (Call.AddMemberIntoChatRoom req info group friends)).2),
           { Client := { c.Client with issued := c.Client.issued ++
               [Call.AddMemberIntoChatRoom req info group friends] } })) ∧
    (∀ users : List User, users ≠ [] →
      c.RemoveFriendFromChatRoom env req info group users
        = (parseBaseResponseError env.unmarshalBaseResponse
            (NewReturnResponse
              (env.transport c.Client (Call.RemoveMemberFromChatRoom req info group users)).1
              (env.transport c.Client (Call.RemoveMemberFromChatRoom req info group users)).2),
           { Client := { c.Client with issued := c.Client.issued ++
               [Call.RemoveMemberFromChatRoom req info group users] } })) := by
  refine ⟨?_, ?_, ?_, ?_⟩
  · simp [Caller.AddFriendIntoChatRoom]
  · simp [Caller.RemoveFriendFromChatRoom]
  · intro friends hne
    simp [Caller.AddFriendIntoChatRoom, Client.request, hne]
  · intro users hne
    simp [Caller.RemoveFriendFromChatRoom, Client.request, hne]

/-- Witness for C9: one friend is added; the reply decodes to an ok
BaseResponse. -/
theorem group_membership_requires_members_witness :
    Caller.AddFriendIntoChatRoom (Env.fixture "{}") { Client := {} } { ref := 0 } {}
        { ref := 7 } [{ ref := 1 }]
      = (none,
         { Client := { issued :=
             [Call.AddMemberIntoChatRoom { ref := 0 } {} { ref := 7 } [{ ref := 1 }]] } }) :=
  (group_membership_requires_members (Env.fixture "{}") { Client := {} } { ref := 0 } {}
    { ref := 7 }).2.2.1 [{ ref := 1 }] (by decide)

/-- Witness for C10: the redirect host maps to the domain `wx2.qq.com` and the
fetch then fails; the client keeps the new domain. -/
theorem GetLoginInfo_domain_frame_witness :
    (Caller.GetLoginInfo (Env.redirectFailing (GoError.other "connection reset"))
        { Client := { domain := "wx.qq.com" } } "").2.Client
      = { domain := "wx2.qq.com",
          issued :=
            [Call.GetLoginInfo "https://wx2.qq.com/cgi-bin/mmwebwx-bin/webwxnewloginpage"] } ∧
    (Caller.GetLoginInfo (Env.redirectFailing (GoError.other "connection reset"))
        { Client := { domain := "wx.qq.com" } } "").1
      = (none, some (GoError.other "connection reset")) :=
  ⟨((GetLoginInfo_domain_frame (Env.redirectFailing (GoError.other "connection reset"))
      { Client := { domain := "wx.qq.com" } } "").1
      "window.redirect_uri=\"https://wx2.qq.com/cgi-bin/mmwebwx-bin/webwxnewloginpage\""
      "https://wx2.qq.com/cgi-bin/mmwebwx-bin/webwxnewloginpage"
      { Host := "wx2.qq.com",
        Text := "https://wx2.qq.com/cgi-bin/mmwebwx-bin/webwxnewloginpage" }
      "wx2.qq.com" rfl rfl rfl).1, rfl⟩

end OpenWechat
